import Mathlib

/-!
Verification of the WSDL parser (`wsdl_parser.py`): a shallow embedding of the
extraction passes, the anchor/link generator and the two renderers, together
with theorems checking the specification's claims about them.

The XML document is modelled as a rose tree of elements.  An element carries
its (namespace-qualified) tag, its attribute list, its text and its children.
Tags are stored with the canonical namespace prefixes of the parser's
`NAMESPACES` table (`wsdl:`, `soap:`, `soap12:`, `xsd:`, `http:`); since that
table is a fixed bijection between prefixes and namespace URIs, matching on
these canonical tags is equivalent to lxml's matching on namespace URIs.
-/

inductive XmlNode : Type where
  | node (tag : String) (attrs : List (String × String)) (text : Option String)
      (children : List XmlNode)

def XmlNode.tag : XmlNode → String
  | .node t _ _ _ => t

def XmlNode.attrs : XmlNode → List (String × String)
  | .node _ a _ _ => a

def XmlNode.text : XmlNode → Option String
  | .node _ _ s _ => s

def XmlNode.children : XmlNode → List XmlNode
  | .node _ _ _ cs => cs

/-- lxml `element.get(key)`: the attribute's value, or `None` when absent. -/
def XmlNode.getAttr (n : XmlNode) (k : String) : Option String :=
  (n.attrs.find? (fun p => p.1 = k)).map (fun p => p.2)

/-- lxml `element.get(key, default)`. -/
def XmlNode.get (n : XmlNode) (k dflt : String) : String :=
  (n.getAttr k).getD dflt

mutual
/-- All proper descendants of an element, in document (preorder) order. -/
def XmlNode.descendants : XmlNode → List XmlNode
  | .node _ _ _ cs => XmlNode.descendantsL cs

def XmlNode.descendantsL : List XmlNode → List XmlNode
  | [] => []
  | c :: cs => c :: (XmlNode.descendants c ++ XmlNode.descendantsL cs)
end

/-- XPath `.//tag` relative to a node: all descendants with the given tag. -/
def xpathDesc (n : XmlNode) (t : String) : List XmlNode :=
  n.descendants.filter (fun c => c.tag = t)

/-- XPath `./tag` relative to a node: all children with the given tag. -/
def xpathChild (n : XmlNode) (t : String) : List XmlNode :=
  n.children.filter (fun c => c.tag = t)

/-- XPath `//tag` from the document root: every element of the document
(the root included) with the given tag, in document order. -/
def xpathAll (root : XmlNode) (t : String) : List XmlNode :=
  (root :: root.descendants).filter (fun c => c.tag = t)

/-- XPath `./t1/t2`: the `t2` children of every `t1` child, in document order. -/
def xpathChildPath (n : XmlNode) (t1 t2 : String) : List XmlNode :=
  (xpathChild n t1).flatMap (fun c => xpathChild c t2)

/-- Python `s.strip()`: remove leading and trailing whitespace (computed on
the character list so that it evaluates by `decide`). -/
def pyStrip (s : String) : String :=
  String.mk (((s.data.dropWhile Char.isWhitespace).reverse.dropWhile
    Char.isWhitespace).reverse)

/-- `WSDLParser._strip_namespace`: when the name is present, non-empty and
contains a `:`, keep only the suffix after the last `:` (Python
`qname.split(":")[-1]`); `None` and the empty string map to the empty
string. -/
def strip_namespace (qname : Option String) : String :=
  match qname with
  | none => ""
  | some s =>
    if s ≠ "" ∧ s.data.contains ':' then
      String.mk ((s.data.reverse.takeWhile (fun c => c ≠ ':')).reverse)
    else s

/-- Python `f"{x}"` applied to an optional string: `None` renders as "None". -/
def pyStr (o : Option String) : String :=
  match o with
  | none => "None"
  | some s => s

/-- Python `s * n` for strings (used for the `"=" * 80` separators). -/
def pyRepeat (s : String) (n : Nat) : String :=
  String.join (List.replicate n s)

/- ## The extracted data model (the dictionaries built by the parser) -/

structure Port where
  name : Option String
  binding : String
  address : String
  deriving DecidableEq, Repr

structure Service where
  name : Option String
  ports : List Port
  deriving DecidableEq, Repr

structure BindingOperation where
  name : Option String
  soapAction : String
  deriving DecidableEq, Repr

structure Binding where
  name : Option String
  type : String
  style : String
  transport : String
  operations : List BindingOperation
  deriving DecidableEq, Repr

structure Operation where
  name : Option String
  documentation : String
  input : String
  output : String
  deriving DecidableEq, Repr

structure PortType where
  name : Option String
  operations : List Operation
  deriving DecidableEq, Repr

structure MessagePart where
  name : Option String
  element : String
  type : String
  deriving DecidableEq, Repr

structure Message where
  name : Option String
  parts : List MessagePart
  deriving DecidableEq, Repr

structure TypeField where
  name : Option String
  type : String
  minOccurs : String
  maxOccurs : String
  nillable : String
  documentation : String
  deriving DecidableEq, Repr

/-- The two shapes of entries of the extracted type list: the dictionaries
with `"type": "complexType"` and those with `"type": "element"`. -/
inductive TypeEntry : Type where
  | complexType (name : Option String) (documentation : String)
      (elements : List TypeField)
  | element (name : Option String) (dataType : String) (documentation : String)
  deriving DecidableEq, Repr

def TypeEntry.name : TypeEntry → Option String
  | .complexType n _ _ => n
  | .element n _ _ => n

structure ParsedModel where
  target_namespace : String
  services : List Service
  bindings : List Binding
  port_types : List PortType
  messages : List Message
  types : List TypeEntry
  deriving DecidableEq, Repr

/- ## Extraction passes (`WSDLParser.parse_*`) -/

/-- Body of the port loop of `parse_services`: the SOAP 1.1 address is read
first, then the SOAP 1.2 address overwrites it when present. -/
def parse_port (port : XmlNode) : Port :=
  let base : Port :=
    { name := port.getAttr "name"
      binding := strip_namespace (port.getAttr "binding")
      address := "" }
  let withSoap11 :=
    match xpathDesc port "soap:address" with
    | [] => base
    | a :: _ => { base with address := a.get "location" "" }
  match xpathDesc port "soap12:address" with
  | [] => withSoap11
  | a :: _ => { withSoap11 with address := a.get "location" "" }

def parse_service (service : XmlNode) : Service :=
  { name := service.getAttr "name"
    ports := (xpathDesc service "wsdl:port").map parse_port }

def parse_services (root : XmlNode) : List Service :=
  (xpathAll root "wsdl:service").map parse_service

/-- Body of the operation loop of `parse_bindings`: only the SOAP 1.1
`soap:operation` element is queried for the `soapAction` attribute. -/
def parse_binding_operation (operation : XmlNode) : BindingOperation :=
  { name := operation.getAttr "name"
    soapAction :=
      match xpathDesc operation "soap:operation" with
      | [] => ""
      | so :: _ => so.get "soapAction" "" }

def parse_binding (binding : XmlNode) : Binding :=
  let styleTransport :=
    match xpathDesc binding "soap:binding" with
    | [] => ("", "")
    | sb :: _ => (sb.get "style" "document", sb.get "transport" "")
  { name := binding.getAttr "name"
    type := strip_namespace (binding.getAttr "type")
    style := styleTransport.1
    transport := styleTransport.2
    operations := (xpathDesc binding "wsdl:operation").map parse_binding_operation }

def parse_bindings (root : XmlNode) : List Binding :=
  (xpathAll root "wsdl:binding").map parse_binding

def parse_pt_operation (operation : XmlNode) : Operation :=
  { name := operation.getAttr "name"
    documentation :=
      match xpathDesc operation "wsdl:documentation" with
      | [] => ""
      | d :: _ =>
        match d.text with
        | none => ""
        | some t => if t ≠ "" then pyStrip t else ""
    input :=
      match xpathDesc operation "wsdl:input" with
      | [] => ""
      | i :: _ => strip_namespace (some (i.get "message" ""))
    output :=
      match xpathDesc operation "wsdl:output" with
      | [] => ""
      | o :: _ => strip_namespace (some (o.get "message" "")) }

def parse_port_type (pt : XmlNode) : PortType :=
  { name := pt.getAttr "name"
    operations := (xpathDesc pt "wsdl:operation").map parse_pt_operation }

def parse_port_types (root : XmlNode) : List PortType :=
  (xpathAll root "wsdl:portType").map parse_port_type

def parse_part (part : XmlNode) : MessagePart :=
  { name := part.getAttr "name"
    element := strip_namespace (some (part.get "element" ""))
    type := strip_namespace (some (part.get "type" "")) }

def parse_message (message : XmlNode) : Message :=
  { name := message.getAttr "name"
    parts := (xpathDesc message "wsdl:part").map parse_part }

def parse_messages (root : XmlNode) : List Message :=
  (xpathAll root "wsdl:message").map parse_message

/-- `WSDLParser._get_documentation`: the text of the first
`./xsd:annotation/xsd:documentation` child, stripped, or the empty string. -/
def get_documentation (e : XmlNode) : String :=
  match xpathChildPath e "xsd:annotation" "xsd:documentation" with
  | [] => ""
  | d :: _ =>
    match d.text with
    | none => ""
    | some t => if t ≠ "" then pyStrip t else ""

/-- Body of the element loops of `parse_types`: one `TypeField` per
`xsd:element` node found, with the documented attribute defaults. -/
def parse_field (element : XmlNode) : TypeField :=
  { name := element.getAttr "name"
    type := strip_namespace (some (element.get "type" ""))
    minOccurs := element.get "minOccurs" "1"
    maxOccurs := element.get "maxOccurs" "1"
    nillable := element.get "nillable" "false"
    documentation := get_documentation element }

/-- `//wsdl:types/xsd:schema`: the schema children of every `wsdl:types`
element of the document. -/
def wsdl_schemas (root : XmlNode) : List XmlNode :=
  (xpathAll root "wsdl:types").flatMap (fun t => xpathChild t "xsd:schema")

/-- `.//xsd:complexType[@name]` within a schema. -/
def named_complex_types (schema : XmlNode) : List XmlNode :=
  (xpathDesc schema "xsd:complexType").filter (fun ct => (ct.getAttr "name").isSome)

def parse_named_complex_type (ct : XmlNode) : TypeEntry :=
  .complexType (ct.getAttr "name") (get_documentation ct)
    ((xpathDesc ct "xsd:element").map parse_field)

/-- Body of the top-level-element loop of `parse_types`.  `none` is the
`continue` taken when the element has no (or an empty) `name` attribute;
an element with a nested `xsd:complexType` child is promoted into a
`complexType` entry under the element's own name, collecting one field per
*descendant* `xsd:element` of that nested complex type; otherwise a simple
`element` entry is produced. -/
def parse_top_level_element (e : XmlNode) : Option TypeEntry :=
  match e.getAttr "name" with
  | none => none
  | some elemName =>
    if elemName = "" then none
    else
      let elemDoc := get_documentation e
      match xpathChild e "xsd:complexType" with
      | [] =>
        some (.element (some elemName)
          (strip_namespace (some (e.get "type" ""))) elemDoc)
      | inner :: _ =>
        some (.complexType (some elemName)
          (if elemDoc ≠ "" then elemDoc else get_documentation inner)
          ((xpathDesc inner "xsd:element").map parse_field))

def parse_schema_types (schema : XmlNode) : List TypeEntry :=
  (named_complex_types schema).map parse_named_complex_type
    ++ (xpathChild schema "xsd:element").filterMap parse_top_level_element

def parse_types (root : XmlNode) : List TypeEntry :=
  (wsdl_schemas root).flatMap parse_schema_types

/-- `WSDLParser.parse` on an already-loaded tree (loading is the external
Loader collaborator's concern and out of scope here). -/
def parse (root : XmlNode) : ParsedModel :=
  { target_namespace := root.get "targetNamespace" ""
    services := parse_services root
    bindings := parse_bindings root
    port_types := parse_port_types root
    messages := parse_messages root
    types := parse_types root }

/- ## Anchor generator and link resolver -/

/-- Python `s.replace(c, d)` with a single-character pattern: every
occurrence of `c` becomes `d`, all other characters are unchanged. -/
def pyReplaceChar (s : String) (c d : Char) : String :=
  String.mk (s.data.map (fun x => if x = c then d else x))

/-- `_make_anchor_id`: sanitize the name (replace `:`, ` ` and `.` by `_`)
and prepend the prefix with an underscore. -/
def make_anchor_id (pre name : String) : String :=
  let safe_name := pyReplaceChar (pyReplaceChar (pyReplaceChar name ':' '_') ' ' '_') '.' '_'
  pre ++ "_" ++ safe_name

/-- `_make_link_if_exists`: the target set is modelled as the list of the
collected names (Python stores them in a `set`, where a `str` can only be
equal to a `some`-valued member, so membership is tested against `some name`).
All call sites in the source pass no `display_text`, i.e. `none` here. -/
def make_link_if_exists (name : String) (targets : List (Option String))
    (pre : String) (display_text : Option String) : String :=
  let text :=
    match display_text with
    | some d => if d ≠ "" then d else (if name ≠ "" then name else "")
    | none => if name ≠ "" then name else ""
  if name ≠ "" ∧ some name ∈ targets then
    "<a href=\"#" ++ make_anchor_id pre name ++ "\" class=\"ref-link\">" ++ text ++ "</a>"
  else text

/- ## Text renderer (`format_text_output`) -/

/-- The SOAPAction lines appended for one port-type operation by the text
renderer's nested binding search (one line per matching binding operation
with a non-empty `soapAction`, in document order). -/
def text_soap_action_lines (bindings : List Binding) (ptName : Option String)
    (op : Operation) : List String :=
  bindings.flatMap (fun binding =>
    if ptName = some binding.type then
      binding.operations.flatMap (fun bind_op =>
        if bind_op.name = op.name ∧ bind_op.soapAction ≠ "" then
          ["    SOAPAction: " ++ bind_op.soapAction]
        else [])
    else [])

def text_service_lines (service : Service) : List String :=
  ("\n【サービス名】 " ++ pyStr service.name)
    :: service.ports.flatMap (fun port =>
      ["  ├─ ポート: " ++ pyStr port.name,
       "  │  ├─ バインディング: " ++ port.binding,
       "  │  └─ エンドポイント: " ++ port.address])

def text_operation_lines (bindings : List Binding) (ptName : Option String)
    (op : Operation) : List String :=
  ["\n  ● " ++ pyStr op.name]
  ++ (if op.documentation ≠ "" then ["    説明: " ++ op.documentation] else [])
  ++ ["    入力: " ++ op.input, "    出力: " ++ op.output]
  ++ text_soap_action_lines bindings ptName op

def text_port_type_lines (bindings : List Binding) (pt : PortType) : List String :=
  ("\n【ポートタイプ】 " ++ pyStr pt.name)
    :: pt.operations.flatMap (text_operation_lines bindings pt.name)

def text_part_lines (part : MessagePart) : List String :=
  if part.element ≠ "" then
    ["  ├─ " ++ pyStr part.name ++ " (element: " ++ part.element ++ ")"]
  else if part.type ≠ "" then
    ["  ├─ " ++ pyStr part.name ++ " (type: " ++ part.type ++ ")"]
  else []

def text_message_lines (msg : Message) : List String :=
  ("\n【メッセージ】 " ++ pyStr msg.name) :: msg.parts.flatMap text_part_lines

def text_field_line (elem : TypeField) : String :=
  let occurs := "[" ++ elem.minOccurs ++ ".." ++ elem.maxOccurs ++ "]"
  let nillable := if elem.nillable = "true" then " (nullable)" else ""
  let doc_text := if elem.documentation ≠ "" then " - " ++ elem.documentation else ""
  "  ├─ " ++ pyStr elem.name ++ ": " ++ elem.type ++ " " ++ occurs ++ nillable ++ doc_text

def text_type_lines : TypeEntry → List String
  | .complexType name documentation elements =>
      ("\n【複合型】 " ++ pyStr name)
        :: ((if documentation ≠ "" then ["    説明: " ++ documentation] else [])
            ++ elements.map text_field_line)
  | .element name dataType documentation =>
      let doc_text := if documentation ≠ "" then "\n    説明: " ++ documentation else ""
      ["\n【要素】 " ++ pyStr name ++ " : " ++ dataType ++ doc_text]

def format_text_output (data : ParsedModel) : String :=
  let sep := pyRepeat "=" 80
  let output :=
    [sep, "WSDL解析結果", sep,
     "\nターゲット名前空間: " ++ data.target_namespace ++ "\n",
     "\n" ++ sep, "📡 サービス情報", sep]
    ++ data.services.flatMap text_service_lines
    ++ ["\n" ++ sep, "🔧 オペレーション一覧", sep]
    ++ data.port_types.flatMap (text_port_type_lines data.bindings)
    ++ ["\n" ++ sep, "📨 メッセージ定義", sep]
    ++ data.messages.flatMap text_message_lines
    ++ (if data.types ≠ [] then
          ["\n" ++ sep, "📋 データ型定義", sep] ++ data.types.flatMap text_type_lines
        else [])
    ++ ["\n" ++ sep]
  String.intercalate "\n" output

/- ## HTML renderer (`generate_html_output`) -/

/-- The fixed HTML prologue (doctype, styling) up to the spot where the
target namespace is interpolated, written as a concatenation of short
pieces of the original literal. -/
def html_head_css_1 : String :=
  "<!DOCTYPE html>
<html lang=\"ja\">
<head>
    <meta charset=\"UTF-8\">
    <meta name=\"viewport\" content=\"width=device-width, initial-scale=1.0\">
    <title>WSDL解析結果</title>
    <style>
        body \x7b
            font-family: \x27Segoe UI\x27, Tahoma, Geneva, Verdana, sans-serif;
            background: linear-gradient(135deg, #667eea 0%, #764ba2 100%);
            margin: 0;
            padding: 20px;
        \x7d
        .container \x7b
            max-width: 1200px;
            margin: 0 auto;
"

def html_head_css_2 : String :=
  "            background: white;
            border-radius: 10px;
            box-shadow: 0 10px 40px rgba(0,0,0,0.3);
            padding: 40px;
        \x7d
        h1 \x7b
            color: #667eea;
            border-bottom: 3px solid #667eea;
            padding-bottom: 10px;
        \x7d
        h2 \x7b
            color: #764ba2;
            margin-top: 30px;
            padding: 10px;
            background: #f0f0f0;
            border-left: 5px solid #667eea;
        \x7d
        h3 \x7b
"

def html_head_css_3 : String :=
  "            color: #555;
            margin-top: 20px;
        \x7d
        .section \x7b
            margin-bottom: 30px;
        \x7d
        .service, .operation, .message, .type \x7b
            background: #f9f9f9;
            border: 1px solid #ddd;
            border-radius: 5px;
            padding: 15px;
            margin: 10px 0;
        \x7d
        .operation \x7b
            background: #e8f4f8;
        \x7d
        .label \x7b
            font-weight: bold;
            color: #667eea;
        \x7d
"

def html_head_css_4 : String :=
  "        .value \x7b
            color: #333;
            margin-left: 10px;
        \x7d
        .endpoint \x7b
            word-break: break-all;
            color: #0066cc;
        \x7d
        table \x7b
            width: 100%;
            border-collapse: collapse;
            margin: 10px 0;
        \x7d
        th, td \x7b
            padding: 8px;
            text-align: left;
            border-bottom: 1px solid #ddd;
        \x7d
        th \x7b
            background-color: #667eea;
            color: white;
"

def html_head_css_5 : String :=
  "        \x7d
        .badge \x7b
            display: inline-block;
            padding: 3px 8px;
            border-radius: 3px;
            font-size: 0.85em;
            margin: 2px;
        \x7d
        .badge-input \x7b
            background: #4caf50;
            color: white;
        \x7d
        .badge-output \x7b
            background: #2196f3;
            color: white;
        \x7d
        /* リンク用スタイル */
        .ref-link \x7b
            color: #0066cc;
            text-decoration: none;
"

def html_head_css_6 : String :=
  "            border-bottom: 1px dashed #0066cc;
            transition: all 0.2s ease;
        \x7d
        .ref-link:hover \x7b
            color: #004499;
            border-bottom-style: solid;
            background-color: #e8f4f8;
        \x7d
        /* アンカーターゲットのハイライト */
        :target \x7b
            animation: highlight 2s ease;
        \x7d
        @keyframes highlight \x7b
            0% \x7b background-color: #ffeb3b; \x7d
            100% \x7b background-color: transparent; \x7d
        \x7d
        /* 目次用スタイル */
"

def html_head_css_7 : String :=
  "        .toc \x7b
            background: #f5f5f5;
            border: 1px solid #ddd;
            border-radius: 5px;
            padding: 15px;
            margin-bottom: 20px;
        \x7d
        .toc h3 \x7b
            margin-top: 0;
            color: #667eea;
        \x7d
        .toc ul \x7b
            list-style-type: none;
            padding-left: 0;
        \x7d
        .toc li \x7b
            margin: 5px 0;
        \x7d
        .toc a \x7b
            color: #667eea;
            text-decoration: none;
"

def html_head_css_8 : String :=
  "        \x7d
        .toc a:hover \x7b
            text-decoration: underline;
        \x7d
    </style>
</head>
<body>
    <div class=\"container\">
        <h1>📄 WSDL解析結果</h1>
        <p><span class=\"label\">ターゲット名前空間:</span> <span class=\"value\">"

def html_head_css : String :=
  html_head_css_1 ++ html_head_css_2 ++ html_head_css_3 ++ html_head_css_4
  ++ html_head_css_5 ++ html_head_css_6 ++ html_head_css_7 ++ html_head_css_8

/-- The rest of the fixed HTML prologue: closing the namespace line and
the navigational table of contents with its four fixed links. -/
def html_head_toc : String :=
  "</span></p>

        <div class=\"toc\">
            <h3>📑 目次</h3>
            <ul>
                <li><a href=\"#section-services\">📡 サービス情報</a></li>
                <li><a href=\"#section-operations\">🔧 オペレーション一覧</a></li>
                <li><a href=\"#section-messages\">📨 メッセージ定義</a></li>
                <li><a href=\"#section-types\">📋 データ型定義</a></li>
            </ul>
        </div>
"

def html_head (tns : String) : String :=
  html_head_css ++ tns ++ html_head_toc

def html_port (port : Port) : String :=
  "\n                <p><span class=\"label\">ポート名:</span> <span class=\"value\">"
  ++ pyStr port.name
  ++ "</span></p>\n                <p><span class=\"label\">バインディング:</span> <span class=\"value\">"
  ++ port.binding
  ++ "</span></p>\n                <p><span class=\"label\">エンドポイント:</span> <span class=\"value endpoint\">"
  ++ port.address
  ++ "</span></p>\n            "

def html_service (service : Service) : String :=
  "<div class=\"service\"><h3>" ++ pyStr service.name ++ "</h3>"
  ++ String.join (service.ports.map html_port) ++ "</div>"

def html_services_section (services : List Service) : String :=
  "<div class=\"section\" id=\"section-services\"><h2>📡 サービス情報</h2>"
  ++ String.join (services.map html_service) ++ "</div>"

/-- The `soap_action` value computed by the HTML renderer's nested binding
search: repeated reassignment leaves the value of the last matching binding
operation with a non-empty `soapAction`. -/
def html_soap_action (bindings : List Binding) (ptName : Option String)
    (op : Operation) : String :=
  bindings.foldl (fun sa binding =>
    if ptName = some binding.type then
      binding.operations.foldl (fun sa2 bind_op =>
        if bind_op.name = op.name ∧ bind_op.soapAction ≠ "" then
          bind_op.soapAction
        else sa2) sa
    else sa) ""

def html_operation (bindings : List Binding) (message_names : List (Option String))
    (ptName : Option String) (op : Operation) : String :=
  let soap_action := html_soap_action bindings ptName op
  let doc_html := if op.documentation ≠ "" then "<p><i>" ++ op.documentation ++ "</i></p>" else ""
  let soap_html :=
    if soap_action ≠ "" then
      "<p><span class=\x27label\x27>SOAPAction:</span> <span class=\x27value\x27>"
      ++ soap_action ++ "</span></p>"
    else ""
  let input_link := make_link_if_exists op.input message_names "msg" none
  let output_link := make_link_if_exists op.output message_names "msg" none
  "\n                <div class=\"operation\">\n                    <h4>"
  ++ pyStr op.name ++ "</h4>\n                    " ++ doc_html
  ++ "\n                    <p>\n                        <span class=\"badge badge-input\">入力</span> "
  ++ input_link
  ++ "\n                        <span class=\"badge badge-output\">出力</span> "
  ++ output_link ++ "\n                    </p>\n                    " ++ soap_html
  ++ "\n                </div>\n            "

def html_port_type (bindings : List Binding) (message_names : List (Option String))
    (pt : PortType) : String :=
  "<h3>" ++ pyStr pt.name ++ "</h3>"
  ++ String.join (pt.operations.map (html_operation bindings message_names pt.name))

def html_operations_section (bindings : List Binding)
    (message_names : List (Option String)) (port_types : List PortType) : String :=
  "<div class=\"section\" id=\"section-operations\"><h2>🔧 オペレーション一覧</h2>"
  ++ String.join (port_types.map (html_port_type bindings message_names)) ++ "</div>"

def html_part_row (type_names : List (Option String)) (part : MessagePart) : String :=
  let elem_or_type :=
    if part.element ≠ "" then
      "element: " ++ make_link_if_exists part.element type_names "type" none
    else
      "type: " ++ make_link_if_exists part.type type_names "type" none
  "<tr><td>" ++ pyStr part.name ++ "</td><td>" ++ elem_or_type ++ "</td></tr>"

/-- One message block.  (On a model with a `None` message name the Python
code would raise inside `_make_anchor_id`; renderer theorems therefore
assume every message name is present, and `pyStr` is exact on that domain.) -/
def html_message (type_names : List (Option String)) (msg : Message) : String :=
  let anchor_id := make_anchor_id "msg" (pyStr msg.name)
  "<div class=\"message\" id=\"" ++ anchor_id ++ "\"><h4>" ++ pyStr msg.name
  ++ "</h4><table>" ++ "<tr><th>パラメータ名</th><th>要素/型</th></tr>"
  ++ String.join (msg.parts.map (html_part_row type_names)) ++ "</table></div>"

def html_messages_section (type_names : List (Option String))
    (messages : List Message) : String :=
  "<div class=\"section\" id=\"section-messages\"><h2>📨 メッセージ定義</h2>"
  ++ String.join (messages.map (html_message type_names)) ++ "</div>"

def html_field_row (type_names : List (Option String)) (elem : TypeField) : String :=
  let occurs := elem.minOccurs ++ ".." ++ elem.maxOccurs
  let nillable := if elem.nillable = "true" then "✓" else ""
  let doc := elem.documentation
  let type_link := make_link_if_exists elem.type type_names "type" none
  "<tr><td>" ++ pyStr elem.name ++ "</td><td>" ++ type_link ++ "</td><td>"
  ++ occurs ++ "</td><td>" ++ nillable ++ "</td><td>" ++ doc ++ "</td></tr>"

/-- One type block (same `None`-name caveat as `html_message`). -/
def html_type_entry (type_names : List (Option String)) : TypeEntry → String
  | .complexType name documentation elements =>
      let anchor_id := make_anchor_id "type" (pyStr name)
      "<div class=\"type\" id=\"" ++ anchor_id ++ "\"><h4>" ++ pyStr name ++ "</h4>"
      ++ (if documentation ≠ "" then "<p><i>" ++ documentation ++ "</i></p>" else "")
      ++ "<table>"
      ++ "<tr><th>フィールド名</th><th>型</th><th>出現回数</th><th>Nullable</th><th>説明</th></tr>"
      ++ String.join (elements.map (html_field_row type_names)) ++ "</table></div>"
  | .element name dataType documentation =>
      let anchor_id := make_anchor_id "type" (pyStr name)
      let type_link := make_link_if_exists dataType type_names "type" none
      "<div class=\"type\" id=\"" ++ anchor_id ++ "\"><h4>" ++ pyStr name ++ "</h4>"
      ++ (if documentation ≠ "" then "<p><i>" ++ documentation ++ "</i></p>" else "")
      ++ "<p><span class=\"label\">データ型:</span> " ++ type_link ++ "</p></div>"

/-- The data-type section.  The opening `div` with the `section-types` anchor
is emitted only when the type list is non-empty; the closing `</div>` sits
outside that conditional in the source and is appended unconditionally. -/
def html_types_section (type_names : List (Option String))
    (types : List TypeEntry) : String :=
  (if types ≠ [] then
     "<div class=\"section\" id=\"section-types\"><h2>📋 データ型定義</h2>"
     ++ String.join (types.map (html_type_entry type_names))
   else "") ++ "</div>"

/-- The message-name set `{msg["name"] for msg in data["messages"]}` (kept as
a list; membership is what the renderer uses it for). -/
def collect_message_names (data : ParsedModel) : List (Option String) :=
  data.messages.map (fun msg => msg.name)

/-- The type-name set: names of type entries whose `name` value is truthy
(present and non-empty). -/
def collect_type_names (data : ParsedModel) : List (Option String) :=
  data.types.filterMap (fun dtype =>
    match dtype.name with
    | some n => if n ≠ "" then some (some n) else none
    | none => none)

def generate_html_output (data : ParsedModel) : String :=
  let message_names := collect_message_names data
  let type_names := collect_type_names data
  html_head data.target_namespace
  ++ html_services_section data.services
  ++ html_operations_section data.bindings message_names data.port_types
  ++ html_messages_section type_names data.messages
  ++ html_types_section type_names data.types
  ++ "</div></body></html>"

/- ## Substring occurrence (for statements about rendered output) -/

/-- Executable check that `p` occurs as a contiguous run inside `l`. -/
def listInfixB (p : List Char) : List Char → Bool
  | [] => p.isEmpty
  | b :: ls => p.isPrefixOf (b :: ls) || listInfixB p ls

theorem listInfixB_iff (p l : List Char) : listInfixB p l = true ↔ p <:+: l := by
  induction l with
  | nil => simp [listInfixB, List.isEmpty_iff]
  | cons b ls ih =>
    rw [listInfixB]
    simp [List.infix_cons_iff, ih, List.isPrefixOf_iff_prefix]

/-- `pat` occurs as a contiguous substring of `s`. -/
def strContains (s pat : String) : Prop :=
  pat.data <:+: s.data

instance (s pat : String) : Decidable (strContains s pat) :=
  decidable_of_iff (listInfixB pat.data s.data = true)
    (by rw [listInfixB_iff]; exact Iff.rfl)

theorem strContains_append_left {a pat : String} (b : String)
    (h : strContains a pat) : strContains (a ++ b) pat := by
  obtain ⟨s, t, hst⟩ := h
  exact ⟨s, t ++ b.data, by simp [← hst]⟩

theorem strContains_append_right {b pat : String} (a : String)
    (h : strContains b pat) : strContains (a ++ b) pat := by
  obtain ⟨s, t, hst⟩ := h
  exact ⟨a.data ++ s, t, by simp [← hst]⟩

/- Chunk-wise non-occurrence: checking that a pattern does not occur in a
long concatenation by scanning each chunk together with a short lookahead
window into the rest (keeps every evaluated list small). -/

theorem infix_append_split {p c rest : List Char}
    (h : p <:+: c ++ rest) :
    p <:+: c ++ rest.take (p.length - 1) ∨ p <:+: rest := by
  rcases List.isInfix_iff.mp h with ⟨k, hlen, hget⟩
  rcases Nat.lt_or_ge k c.length with hk | hk
  · left
    apply List.isInfix_iff.mpr
    refine ⟨k, ?_, ?_⟩
    · rw [List.length_append, List.length_take]
      rcases Nat.le_total rest.length (p.length - 1) with hr | hr
      · rw [Nat.min_eq_right hr]
        rw [List.length_append] at hlen
        omega
      · rw [Nat.min_eq_left hr]
        omega
    · intro i hi
      have hgi := hget i hi
      rw [List.getElem?_append] at hgi ⊢
      by_cases hik : i + k < c.length
      · rw [if_pos hik] at hgi ⊢
        exact hgi
      · rw [if_neg hik] at hgi ⊢
        rw [List.getElem?_take, if_pos (by omega)]
        exact hgi
  · right
    apply List.isInfix_iff.mpr
    refine ⟨k - c.length, ?_, ?_⟩
    · rw [List.length_append] at hlen
      omega
    · intro i hi
      have hgi := hget i hi
      rw [List.getElem?_append] at hgi
      rw [if_neg (by omega)] at hgi
      have : i + k - c.length = i + (k - c.length) := by omega
      rw [this] at hgi
      exact hgi

def flattenChunks : List (List Char) → List Char
  | [] => []
  | c :: rest => c ++ flattenChunks rest

def chunksAvoid (p : List Char) : List (List Char) → Bool
  | [] => true
  | c :: rest =>
      !(listInfixB p (c ++ (flattenChunks rest).take (p.length - 1)))
        && chunksAvoid p rest

theorem chunksAvoid_spec (p : List Char) (hp : p ≠ []) :
    ∀ chunks, chunksAvoid p chunks = true → ¬ p <:+: flattenChunks chunks := by
  intro chunks
  induction chunks with
  | nil =>
    intro _ h
    exact hp (List.eq_nil_of_infix_nil h)
  | cons c rest ih =>
    intro h hin
    rw [chunksAvoid, Bool.and_eq_true, Bool.not_eq_true'] at h
    rw [flattenChunks] at hin
    rcases infix_append_split hin with h1 | h2
    · rw [← listInfixB_iff] at h1
      rw [h.1] at h1
      exact Bool.false_ne_true h1
    · exact ih h.2 h2

/- ## Small helper lemmas -/

theorem strData_append (a b : String) : (a ++ b).data = a.data ++ b.data := rfl

theorem strData_mk (l : List Char) : (String.mk l).data = l := rfl

theorem strLength_append (a b : String) : (a ++ b).length = a.length + b.length :=
  String.length_append a b

/- ## Claims about the anchor generator and the link resolver -/

/-- The sanitization map of the anchor-id contract: `:`, ` ` and `.` become
`_`; every other character is unchanged. -/
def sanitizeChar (c : Char) : Char :=
  if c = ':' then '_' else if c = ' ' then '_' else if c = '.' then '_' else c

/-- Claim C9: for every prefix `p` and name `n` the anchor generator returns
exactly `p ++ "_" ++ s` where `s` is `n` with every occurrence of `:`, ` `
and `.` replaced by `_` and no other character changed (in particular no
truncation: the sanitized name has the same length), and the generator is
deterministic. -/
theorem C9_anchor_id_contract (p n : String) :
    make_anchor_id p n = p ++ "_" ++ String.mk (n.data.map sanitizeChar)
    ∧ (n.data.map sanitizeChar).length = n.data.length
    ∧ (∀ c ∈ n.data, c ≠ ':' → c ≠ ' ' → c ≠ '.' → sanitizeChar c = c)
    ∧ (sanitizeChar ':' = '_' ∧ sanitizeChar ' ' = '_' ∧ sanitizeChar '.' = '_')
    ∧ make_anchor_id p n = make_anchor_id p n := by
  have hmap : ((n.data.map (fun x => if x = ':' then '_' else x)).map
        (fun x => if x = ' ' then '_' else x)).map (fun x => if x = '.' then '_' else x)
      = n.data.map sanitizeChar := by
    rw [List.map_map, List.map_map]
    apply List.map_congr_left
    intro c _
    simp only [Function.comp]
    by_cases h1 : c = ':'
    · subst h1; decide
    · by_cases h2 : c = ' '
      · subst h2; decide
      · by_cases h3 : c = '.'
        · subst h3; decide
        · simp [sanitizeChar, h1, h2, h3]
  refine ⟨?_, by rw [List.length_map], ?_, by decide, rfl⟩
  · show p ++ "_" ++ String.mk (((n.data.map (fun x => if x = ':' then '_' else x)).map
        (fun x => if x = ' ' then '_' else x)).map (fun x => if x = '.' then '_' else x))
        = p ++ "_" ++ String.mk (n.data.map sanitizeChar)
    rw [hmap]
  · intro c _ h1 h2 h3
    simp [sanitizeChar, h1, h2, h3]

/-- Witness for C9 at concrete input: `"a.b:c d"` with prefix `"type"`
sanitizes to `"type_a_b_c_d"`. -/
theorem C9_anchor_id_contract_witness :
    make_anchor_id "type" "a.b:c d"
      = "type" ++ "_" ++ String.mk ("a.b:c d".data.map sanitizeChar)
    ∧ make_anchor_id "type" "a.b:c d" = "type_a_b_c_d" :=
  ⟨(C9_anchor_id_contract "type" "a.b:c d").1, by decide⟩

/-- Claim C1: with no display text (as at every call site), the resolver
returns the anchor-linked element built from `make_anchor_id` exactly when
the name is non-empty and belongs to the target set; the empty name yields
the empty display text, and a non-empty name outside the target set is
returned as plain text. -/
theorem C1_link_resolution (r : String) (S : List (Option String)) (p : String) :
    (make_link_if_exists r S p none =
        "<a href=\"#" ++ make_anchor_id p r ++ "\" class=\"ref-link\">" ++ r ++ "</a>"
      ↔ r ≠ "" ∧ some r ∈ S)
    ∧ (r = "" → make_link_if_exists r S p none = "")
    ∧ (r ≠ "" → some r ∉ S → make_link_if_exists r S p none = r) := by
  have e1 : ("<a href=\"#" : String).length = 10 := rfl
  have e2 : ("\" class=\"ref-link\">" : String).length = 19 := rfl
  have e3 : ("</a>" : String).length = 4 := rfl
  have e4 : ("" : String).length = 0 := rfl
  refine ⟨⟨?_, ?_⟩, ?_, ?_⟩
  · intro h
    by_cases hc : r ≠ "" ∧ some r ∈ S
    · exact hc
    · exfalso
      simp only [make_link_if_exists, if_neg hc] at h
      have hlen := congrArg String.length h
      simp only [strLength_append, e1, e2, e3] at hlen
      by_cases hr : r ≠ ""
      · rw [if_pos hr] at hlen
        omega
      · rw [if_neg hr, e4] at hlen
        omega
  · intro hc
    simp only [make_link_if_exists, if_pos hc]
    simp [hc.1]
  · intro hr
    simp only [make_link_if_exists, if_neg (show ¬ (r ≠ "" ∧ some r ∈ S) by simp [hr])]
    simp [hr]
  · intro hr hs
    simp only [make_link_if_exists, if_neg (show ¬ (r ≠ "" ∧ some r ∈ S) by simp [hs]),
      if_pos hr]

/-- Witness for C1 at concrete inputs: a name in the set links, the empty
name renders as the empty string, an unknown name renders as itself. -/
theorem C1_link_resolution_witness :
    (make_link_if_exists "M1" [some "M1"] "msg" none =
        "<a href=\"#" ++ make_anchor_id "msg" "M1" ++ "\" class=\"ref-link\">" ++ "M1" ++ "</a>")
    ∧ make_link_if_exists "" [some "M1"] "msg" none = ""
    ∧ make_link_if_exists "M2" [some "M1"] "msg" none = "M2" :=
  ⟨(C1_link_resolution "M1" [some "M1"] "msg").1.mpr (by decide),
   (C1_link_resolution "" [some "M1"] "msg").2.1 rfl,
   (C1_link_resolution "M2" [some "M1"] "msg").2.2 (by decide) (by decide)⟩

/- ## Claims about the extraction passes -/

/-- Claim C5 (amended): the transport field is empty whenever the transport
attribute is absent, and both style and transport are empty when no
`soap:binding` element exists at all; but when a `soap:binding` element is
present without a style attribute, the style field defaults to `"document"`
(not to the empty string). -/
theorem C5_style_transport_defaults (b sb : XmlNode) (rest : List XmlNode) :
    (xpathDesc b "soap:binding" = [] →
      (parse_binding b).style = "" ∧ (parse_binding b).transport = "")
    ∧ (xpathDesc b "soap:binding" = sb :: rest →
        (sb.getAttr "style" = none → (parse_binding b).style = "document")
        ∧ (sb.getAttr "transport" = none → (parse_binding b).transport = "")) := by
  constructor
  · intro h
    constructor <;> simp [parse_binding, h]
  · intro h
    constructor <;> intro ha <;> simp [parse_binding, h, XmlNode.get, ha]

/-- The document of the C5 counterexample: a binding whose `soap:binding`
child carries a transport attribute but no style attribute. -/
def exC5doc : XmlNode :=
  .node "wsdl:definitions" [("targetNamespace", "urn:c5")] none
    [.node "wsdl:binding" [("name", "B"), ("type", "tns:PT")] none
      [.node "soap:binding" [("transport", "http://schemas.xmlsoap.org/soap/http")] none []]]

/-- Counterexample to claim C5 as stated: the style attribute is absent in
`exC5doc`, yet the extracted style field is `"document"`, not the empty
string (so a non-empty default is substituted for a missing style). -/
theorem C5_counterexample :
    parse_bindings exC5doc =
      [{ name := some "B", type := "PT", style := "document",
         transport := "http://schemas.xmlsoap.org/soap/http", operations := [] }]
    ∧ (∀ bnd ∈ parse_bindings exC5doc, bnd.style ≠ "") := by decide

/-- Witness for C5 at concrete inputs: a binding without any `soap:binding`
child has empty style and transport; with a style-less `soap:binding` child
the transport stays faithful to absence. -/
theorem C5_style_transport_defaults_witness :
    ((parse_binding (.node "wsdl:binding" [("name", "B")] none [])).style = ""
      ∧ (parse_binding (.node "wsdl:binding" [("name", "B")] none [])).transport = "")
    ∧ (parse_binding (.node "wsdl:binding" [("name", "B")] none
        [.node "soap:binding" [] none []])).style = "document" :=
  ⟨(C5_style_transport_defaults (.node "wsdl:binding" [("name", "B")] none [])
      (.node "soap:binding" [] none []) []).1 rfl,
   ((C5_style_transport_defaults (.node "wsdl:binding" [("name", "B")] none
        [.node "soap:binding" [] none []])
      (.node "soap:binding" [] none []) []).2 rfl).1 rfl⟩

/-- Claim C6 (amended): a message part has at most one of its
element-reference and type-reference fields non-empty whenever the source
part element carries at most one of the two attributes; a part carrying
both attributes yields both fields non-empty. -/
theorem C6_part_exclusivity (part : XmlNode) :
    (part.getAttr "element" = none ∨ part.getAttr "type" = none) →
    (parse_part part).element = "" ∨ (parse_part part).type = "" := by
  intro h
  rcases h with h | h
  · left
    simp [parse_part, XmlNode.get, h, strip_namespace]
  · right
    simp [parse_part, XmlNode.get, h, strip_namespace]

/-- The document of the C6 counterexample: a part carrying both an element
attribute and a type attribute. -/
def exC6doc : XmlNode :=
  .node "wsdl:definitions" [("targetNamespace", "urn:c6")] none
    [.node "wsdl:message" [("name", "M")] none
      [.node "wsdl:part"
        [("name", "p"), ("element", "tns:UserReq"), ("type", "xsd:string")] none []]]

/-- Counterexample to claim C6 as stated: for `exC6doc` (a part with both
an element and a type attribute) the extracted part has both fields
non-empty, so the at-most-one invariant does not hold for every input. -/
theorem C6_counterexample :
    ¬ (∀ msg ∈ parse_messages exC6doc, ∀ part ∈ msg.parts,
        part.element = "" ∨ part.type = "") := by decide

/-- Witness for C6 at a concrete input: a part with only a type attribute
has an empty element field. -/
theorem C6_part_exclusivity_witness :
    (parse_part (.node "wsdl:part" [("name", "p"), ("type", "xsd:string")] none [])).element = ""
    ∨ (parse_part (.node "wsdl:part" [("name", "p"), ("type", "xsd:string")] none [])).type = "" :=
  C6_part_exclusivity (.node "wsdl:part" [("name", "p"), ("type", "xsd:string")] none [])
    (Or.inl (by decide))

/-- Claim C2 (amended): for port addresses both SOAP versions are queried
independently and the SOAP 1.2 address overwrites the SOAP 1.1 address
whenever a `soap12:address` element is present (last-writer-wins); for
binding operations, however, only the SOAP 1.1 `soap:operation` element is
ever queried, so the stored data comes from it even when a
`soap12:operation` element is also present. -/
theorem C2_soap12_precedence (port op a12 so : XmlNode) (r1 r2 : List XmlNode) :
    (xpathDesc port "soap12:address" = a12 :: r1 →
      (parse_port port).address = a12.get "location" "")
    ∧ (xpathDesc op "soap:operation" = so :: r2 →
      (parse_binding_operation op).soapAction = so.get "soapAction" "") := by
  constructor
  · intro h
    simp [parse_port, h]
  · intro h
    simp [parse_binding_operation, h]

/-- The document of the C2 counterexample: a port with both a SOAP 1.1 and
a SOAP 1.2 address, and a binding operation with both a `soap:operation`
(action `urn:A1`) and a `soap12:operation` (action `urn:A2`). -/
def exC2doc : XmlNode :=
  .node "wsdl:definitions" [("targetNamespace", "urn:c2")] none
    [.node "wsdl:service" [("name", "S")] none
      [.node "wsdl:port" [("name", "P"), ("binding", "tns:B")] none
        [.node "soap:address" [("location", "http://one.example/v11")] none [],
         .node "soap12:address" [("location", "http://two.example/v12")] none []]],
     .node "wsdl:binding" [("name", "B"), ("type", "tns:PT")] none
      [.node "wsdl:operation" [("name", "Op")] none
        [.node "soap:operation" [("soapAction", "urn:A1")] none [],
         .node "soap12:operation" [("soapAction", "urn:A2")] none []]]]

/-- Counterexample to claim C2 as stated: in `exC2doc` the port address is
indeed the SOAP 1.2 location, but the stored binding-operation data comes
from the SOAP 1.1 element (`urn:A1`), not from the SOAP 1.2 element, whose
value `urn:A2` is stored nowhere. -/
theorem C2_counterexample :
    (parse_services exC2doc).flatMap (fun s => s.ports.map Port.address)
      = ["http://two.example/v12"]
    ∧ (parse_bindings exC2doc).flatMap (fun b => b.operations.map BindingOperation.soapAction)
      = ["urn:A1"]
    ∧ (∀ b ∈ parse_bindings exC2doc, ∀ o ∈ b.operations, o.soapAction ≠ "urn:A2") := by
  decide

/-- Witness for C2 at concrete inputs taken from `exC2doc`. -/
theorem C2_soap12_precedence_witness :
    (parse_port (.node "wsdl:port" [("name", "P"), ("binding", "tns:B")] none
        [.node "soap:address" [("location", "http://one.example/v11")] none [],
         .node "soap12:address" [("location", "http://two.example/v12")] none []])).address
      = "http://two.example/v12"
    ∧ (parse_binding_operation (.node "wsdl:operation" [("name", "Op")] none
        [.node "soap:operation" [("soapAction", "urn:A1")] none [],
         .node "soap12:operation" [("soapAction", "urn:A2")] none []])).soapAction
      = "urn:A1" :=
  ⟨(C2_soap12_precedence
      (XmlNode.node "wsdl:port" [("name", "P"), ("binding", "tns:B")] none
        [XmlNode.node "soap:address" [("location", "http://one.example/v11")] none [],
         XmlNode.node "soap12:address" [("location", "http://two.example/v12")] none []])
      (XmlNode.node "wsdl:operation" [] none [])
      (XmlNode.node "soap12:address" [("location", "http://two.example/v12")] none [])
      (XmlNode.node "x" [] none []) [] []).1 rfl,
   (C2_soap12_precedence (XmlNode.node "x" [] none [])
      (XmlNode.node "wsdl:operation" [("name", "Op")] none
        [XmlNode.node "soap:operation" [("soapAction", "urn:A1")] none [],
         XmlNode.node "soap12:operation" [("soapAction", "urn:A2")] none []])
      (XmlNode.node "x" [] none [])
      (XmlNode.node "soap:operation" [("soapAction", "urn:A1")] none [])
      [] []).2 rfl⟩

/-- Claim C10: a top-level schema element without a name attribute is
silently skipped by type extraction: it contributes no entry of any kind
(its per-element result is `none`), and extraction continues with the
remaining elements exactly as if it were absent. -/
theorem C10_nameless_element_skipped (e : XmlNode) (l1 l2 : List XmlNode) :
    e.getAttr "name" = none →
    parse_top_level_element e = none
    ∧ (l1 ++ e :: l2).filterMap parse_top_level_element
        = (l1 ++ l2).filterMap parse_top_level_element := by
  intro h
  have he : parse_top_level_element e = none := by
    simp [parse_top_level_element, h]
  exact ⟨he, by simp [List.filterMap_append, List.filterMap_cons, he]⟩

/-- Witness for C10 at a concrete input: a nameless top-level element
between two named ones is skipped and the others are still extracted. -/
theorem C10_nameless_element_skipped_witness :
    parse_top_level_element (XmlNode.node "xsd:element" [("type", "xsd:string")] none []) = none
    ∧ ([XmlNode.node "xsd:element" [("name", "A"), ("type", "xsd:string")] none []]
        ++ (XmlNode.node "xsd:element" [("type", "xsd:string")] none [])
        :: [XmlNode.node "xsd:element" [("name", "B"), ("type", "xsd:int")] none []]).filterMap
          parse_top_level_element
      = ([XmlNode.node "xsd:element" [("name", "A"), ("type", "xsd:string")] none []]
          ++ [XmlNode.node "xsd:element" [("name", "B"), ("type", "xsd:int")] none []]).filterMap
            parse_top_level_element :=
  C10_nameless_element_skipped (XmlNode.node "xsd:element" [("type", "xsd:string")] none [])
    [XmlNode.node "xsd:element" [("name", "A"), ("type", "xsd:string")] none []]
    [XmlNode.node "xsd:element" [("name", "B"), ("type", "xsd:int")] none []] rfl

theorem length_filterMap_eq {α β : Type} (f : α → Option β) (l : List α) :
    (l.filterMap f).length = (l.filter (fun a => (f a).isSome)).length := by
  induction l with
  | nil => rfl
  | cons a tl ih =>
    cases h : f a <;> simp [List.filterMap_cons, List.filter_cons, h, ih]

theorem length_flatMap_eq {α β : Type} (f : α → List β) (l : List α) :
    (l.flatMap f).length = (l.map (fun a => (f a).length)).sum := by
  induction l with
  | nil => rfl
  | cons a tl ih => simp [List.flatMap_cons, ih]

/-- Claim C7: a top-level schema element with a name and a nested anonymous
complex type is promoted into a single ComplexType entry under the
element's own name; its field list has one field per descendant
`xsd:element` node of the nested complex type (not only direct children);
and a field's minOccurs/maxOccurs default to "1" when the attribute is
absent.  The second conjunct places the promoted entry in the schema's
extracted type list. -/
theorem C7_anonymous_type_promotion (e inner schema f : XmlNode) (n : String)
    (ics : List XmlNode) :
    (e.getAttr "name" = some n → n ≠ "" → xpathChild e "xsd:complexType" = inner :: ics →
      parse_top_level_element e = some (.complexType (some n)
        (if get_documentation e ≠ "" then get_documentation e else get_documentation inner)
        ((xpathDesc inner "xsd:element").map parse_field)))
    ∧ (e ∈ xpathChild schema "xsd:element" →
        ∀ t, parse_top_level_element e = some t → t ∈ parse_schema_types schema)
    ∧ (f.getAttr "minOccurs" = none → (parse_field f).minOccurs = "1")
    ∧ (f.getAttr "maxOccurs" = none → (parse_field f).maxOccurs = "1") := by
  refine ⟨?_, ?_, ?_, ?_⟩
  · intro hn hne hic
    simp [parse_top_level_element, hn, hne, hic]
  · intro hmem t ht
    unfold parse_schema_types
    exact List.mem_append_right _ (List.mem_filterMap.mpr ⟨e, hmem, ht⟩)
  · intro h
    simp [parse_field, XmlNode.get, h]
  · intro h
    simp [parse_field, XmlNode.get, h]

/-- The inner anonymous complex type of the C7 witness document. -/
def exC7inner : XmlNode :=
  .node "xsd:complexType" [] none
    [.node "xsd:sequence" [] none
      [.node "xsd:element" [("name", "id"), ("type", "xsd:int")] none [],
       .node "xsd:element" [("name", "qty"), ("type", "xsd:int"), ("minOccurs", "0")] none []]]

/-- The top-level `Order` element of the C7 witness document: its two field
elements sit below an `xsd:sequence`, so they are descendants but not
direct children of the anonymous complex type. -/
def exC7order : XmlNode :=
  .node "xsd:element" [("name", "Order")] none [exC7inner]

def exC7doc : XmlNode :=
  .node "wsdl:definitions" [("targetNamespace", "urn:c7")] none
    [.node "wsdl:types" [] none
      [.node "xsd:schema" [] none [exC7order]]]

/-- Witness for C7, Scenario D: the `Order` element with nested anonymous
complex type and elements `id`, `qty` yields exactly one ComplexType entry
named `Order` with those two fields, minOccurs/maxOccurs defaulting to
`"1"` where absent. -/
theorem C7_anonymous_type_promotion_witness :
    parse_top_level_element exC7order = some (TypeEntry.complexType (some "Order") ""
      [{ name := some "id", type := "int", minOccurs := "1", maxOccurs := "1",
         nillable := "false", documentation := "" },
       { name := some "qty", type := "int", minOccurs := "0", maxOccurs := "1",
         nillable := "false", documentation := "" }])
    ∧ parse_types exC7doc = [TypeEntry.complexType (some "Order") ""
      [{ name := some "id", type := "int", minOccurs := "1", maxOccurs := "1",
         nillable := "false", documentation := "" },
       { name := some "qty", type := "int", minOccurs := "0", maxOccurs := "1",
         nillable := "false", documentation := "" }]] :=
  ⟨((C7_anonymous_type_promotion exC7order exC7inner exC7doc exC7order "Order" []).1
      rfl (by decide) rfl).trans (by decide),
   by decide⟩

/-- Claim C8 (amended): the number of extracted services, bindings,
port-types and messages equals the number of corresponding elements in the
document; the number of type entries equals, per schema, the number of
named `xsd:complexType` descendants plus the number of top-level
`xsd:element` children carrying a non-empty name attribute (nameless
top-level elements contribute no entry). -/
theorem C8_extraction_counts (root : XmlNode) :
    (parse_services root).length = (xpathAll root "wsdl:service").length
    ∧ (parse_bindings root).length = (xpathAll root "wsdl:binding").length
    ∧ (parse_port_types root).length = (xpathAll root "wsdl:portType").length
    ∧ (parse_messages root).length = (xpathAll root "wsdl:message").length
    ∧ (parse_types root).length
        = ((wsdl_schemas root).map (fun schema =>
            (named_complex_types schema).length
            + ((xpathChild schema "xsd:element").filter
                (fun e => (e.getAttr "name").getD "" ≠ "")).length)).sum := by
  refine ⟨by simp [parse_services], by simp [parse_bindings],
    by simp [parse_port_types], by simp [parse_messages], ?_⟩
  unfold parse_types
  rw [length_flatMap_eq]
  congr 1
  apply List.map_congr_left
  intro schema _
  unfold parse_schema_types
  rw [List.length_append, List.length_map, length_filterMap_eq]
  congr 2
  apply List.filter_congr
  intro e _
  cases h : e.getAttr "name" with
  | none => simp [parse_top_level_element, h]
  | some nm =>
    by_cases hnm : nm = ""
    · simp [parse_top_level_element, h, hnm]
    · cases hic : xpathChild e "xsd:complexType" <;>
        simp [parse_top_level_element, h, hnm, hic]

/-- The document of the C8 counterexample: one schema with a single
type-defining element (a top-level `xsd:element`) that has no name. -/
def exC8doc : XmlNode :=
  .node "wsdl:definitions" [("targetNamespace", "urn:c8")] none
    [.node "wsdl:types" [] none
      [.node "xsd:schema" [] none
        [.node "xsd:element" [("type", "xsd:string")] none []]]]

/-- Counterexample to claim C8 as stated: `exC8doc` has one type-defining
element (a nameless top-level schema element) but the extracted type list
is empty, so type entries do not equal the type-defining elements. -/
theorem C8_counterexample :
    (parse_types exC8doc).length = 0
    ∧ ((wsdl_schemas exC8doc).map (fun schema =>
         (named_complex_types schema).length
         + (xpathChild schema "xsd:element").length)).sum = 1 := by decide

/-- Witness for C8 at the concrete document `exC7doc`. -/
theorem C8_extraction_counts_witness :
    (parse_messages exC7doc).length = (xpathAll exC7doc "wsdl:message").length
    ∧ (parse_types exC7doc).length
        = ((wsdl_schemas exC7doc).map (fun schema =>
            (named_complex_types schema).length
            + ((xpathChild schema "xsd:element").filter
                (fun e => (e.getAttr "name").getD "" ≠ "")).length)).sum :=
  ⟨(C8_extraction_counts exC7doc).2.2.2.1, (C8_extraction_counts exC7doc).2.2.2.2⟩

/- ## Claims about the renderers -/

/-- The soapActions of all binding operations matching a port-type
operation (binding type equal to the port-type name, operation names equal,
non-empty action), in document order. -/
def matching_soap_actions (bindings : List Binding) (ptName : Option String)
    (op : Operation) : List String :=
  bindings.flatMap (fun binding =>
    if ptName = some binding.type then
      binding.operations.filterMap (fun bind_op =>
        if bind_op.name = op.name ∧ bind_op.soapAction ≠ "" then
          some bind_op.soapAction
        else none)
    else [])

theorem getLastD_append_chain {α : Type} (A B : List α) (d : α) :
    (A ++ B).getLastD d = B.getLastD (A.getLastD d) := by
  induction A generalizing d with
  | nil => rfl
  | cons a A ih =>
    rw [List.cons_append, List.getLastD_cons, List.getLastD_cons]
    exact ih a

theorem soap_lines_inner_eq (ops : List BindingOperation) (op : Operation) :
    ops.flatMap (fun bind_op =>
        if bind_op.name = op.name ∧ bind_op.soapAction ≠ "" then
          ["    SOAPAction: " ++ bind_op.soapAction]
        else [])
      = (ops.filterMap (fun bind_op =>
          if bind_op.name = op.name ∧ bind_op.soapAction ≠ "" then
            some bind_op.soapAction
          else none)).map (fun a => "    SOAPAction: " ++ a) := by
  induction ops with
  | nil => rfl
  | cons o os ih =>
    rw [List.flatMap_cons, List.filterMap_cons]
    by_cases ho : o.name = op.name ∧ o.soapAction ≠ ""
    · rw [if_pos ho, if_pos ho]
      simp [ih]
    · rw [if_neg ho, if_neg ho]
      simp [ih]

theorem soap_fold_inner_eq (ops : List BindingOperation) (op : Operation) :
    ∀ init, ops.foldl (fun sa2 bind_op =>
        if bind_op.name = op.name ∧ bind_op.soapAction ≠ "" then
          bind_op.soapAction
        else sa2) init
      = (ops.filterMap (fun bind_op =>
          if bind_op.name = op.name ∧ bind_op.soapAction ≠ "" then
            some bind_op.soapAction
          else none)).getLastD init := by
  induction ops with
  | nil => intro init; rfl
  | cons o os ih =>
    intro init
    rw [List.foldl_cons, List.filterMap_cons]
    by_cases ho : o.name = op.name ∧ o.soapAction ≠ ""
    · rw [if_pos ho, if_pos ho]
      rw [ih, List.getLastD_cons]
    · rw [if_neg ho, if_neg ho]
      exact ih init

theorem html_soap_action_fold_eq (bindings : List Binding) (ptName : Option String)
    (op : Operation) : ∀ init,
    bindings.foldl (fun sa binding =>
      if ptName = some binding.type then
        binding.operations.foldl (fun sa2 bind_op =>
          if bind_op.name = op.name ∧ bind_op.soapAction ≠ "" then
            bind_op.soapAction
          else sa2) sa
      else sa) init
    = (matching_soap_actions bindings ptName op).getLastD init := by
  induction bindings with
  | nil => intro init; rfl
  | cons b bs ih =>
    intro init
    rw [List.foldl_cons]
    unfold matching_soap_actions
    rw [List.flatMap_cons, getLastD_append_chain]
    by_cases hc : ptName = some b.type
    · rw [if_pos hc, if_pos hc, soap_fold_inner_eq]
      exact ih _
    · rw [if_neg hc, if_neg hc]
      exact ih init

/-- Claim C3 (amended): for a port-type operation, the text renderer emits
one SOAPAction line for every matching binding operation with a non-empty
soapAction (in document order, possibly several per operation), while the
HTML renderer displays the soapAction of the *last* such match (the nested
reassignment makes the final value win), not the first. -/
theorem C3_soap_action_resolution (bindings : List Binding) (ptName : Option String)
    (op : Operation) :
    text_soap_action_lines bindings ptName op
      = (matching_soap_actions bindings ptName op).map (fun a => "    SOAPAction: " ++ a)
    ∧ html_soap_action bindings ptName op
      = (matching_soap_actions bindings ptName op).getLastD "" := by
  constructor
  · unfold text_soap_action_lines matching_soap_actions
    induction bindings with
    | nil => rfl
    | cons b bs ih =>
      rw [List.flatMap_cons, List.flatMap_cons, List.map_append]
      congr 1
      · by_cases hc : ptName = some b.type
        · rw [if_pos hc, if_pos hc]
          exact soap_lines_inner_eq b.operations op
        · rw [if_neg hc, if_neg hc, List.map_nil]
  · exact html_soap_action_fold_eq bindings ptName op ""

/-- The document of the C3 counterexample: one port type `PT` with a single
operation `Op`, and two bindings (in document order `B1`, then `B2`) both
of type `PT`, each containing a matching operation with a non-empty
soapAction (`urn:A1` and `urn:A2`). -/
def exC3doc : XmlNode :=
  .node "wsdl:definitions" [("targetNamespace", "urn:c3")] none
    [.node "wsdl:portType" [("name", "PT")] none
      [.node "wsdl:operation" [("name", "Op")] none
        [.node "wsdl:input" [("message", "tns:In")] none [],
         .node "wsdl:output" [("message", "tns:Out")] none []]],
     .node "wsdl:binding" [("name", "B1"), ("type", "tns:PT")] none
      [.node "wsdl:operation" [("name", "Op")] none
        [.node "soap:operation" [("soapAction", "urn:A1")] none []]],
     .node "wsdl:binding" [("name", "B2"), ("type", "tns:PT")] none
      [.node "wsdl:operation" [("name", "Op")] none
        [.node "soap:operation" [("soapAction", "urn:A2")] none []]]]

set_option maxRecDepth 10000 in
/-- Counterexample to claim C3 as stated: for `exC3doc` the text renderer
emits two SOAPAction values for the single operation (one per matching
binding, not at most one), and the HTML renderer displays `urn:A2`, the
action of the last matching binding, not of the first. -/
theorem C3_counterexample :
    strContains (format_text_output (parse exC3doc)) "SOAPAction: urn:A1"
    ∧ strContains (format_text_output (parse exC3doc)) "SOAPAction: urn:A2"
    ∧ (∀ pt ∈ (parse exC3doc).port_types, ∀ op ∈ pt.operations,
        html_soap_action (parse exC3doc).bindings pt.name op = "urn:A2"
        ∧ html_soap_action (parse exC3doc).bindings pt.name op ≠ "urn:A1") := by decide

/-- Witness for C3 at the concrete extraction of `exC3doc`. -/
theorem C3_soap_action_resolution_witness :
    text_soap_action_lines (parse exC3doc).bindings (some "PT")
        { name := some "Op", documentation := "", input := "In", output := "Out" }
      = (matching_soap_actions (parse exC3doc).bindings (some "PT")
          { name := some "Op", documentation := "", input := "In", output := "Out" }).map
            (fun a => "    SOAPAction: " ++ a)
    ∧ html_soap_action (parse exC3doc).bindings (some "PT")
        { name := some "Op", documentation := "", input := "In", output := "Out" }
      = (matching_soap_actions (parse exC3doc).bindings (some "PT")
          { name := some "Op", documentation := "", input := "In", output := "Out" }).getLastD "" :=
  C3_soap_action_resolution (parse exC3doc).bindings (some "PT")
    { name := some "Op", documentation := "", input := "In", output := "Out" }

theorem strData_nil : ("" : String).data = [] := rfl

set_option maxRecDepth 40000 in
/-- Claim C4 (amended): the HTML renderer always emits the table of
contents with links to all four section anchors, and always emits the
`section-services`, `section-operations` and `section-messages` anchor
targets; the `section-types` anchor target, however, is emitted exactly
when the type list is non-empty (for an empty type list the TOC link to it
dangles).  Renderer outputs are considered for models whose message and
type names are present (on a `None` name the Python renderer would raise
inside `_make_anchor_id` instead of producing output). -/
theorem C4_section_anchors (data : ParsedModel) :
    strContains (generate_html_output data) "id=\"section-services\""
    ∧ strContains (generate_html_output data) "id=\"section-operations\""
    ∧ strContains (generate_html_output data) "id=\"section-messages\""
    ∧ (data.types ≠ [] → strContains (generate_html_output data) "id=\"section-types\"")
    ∧ strContains (generate_html_output data) "href=\"#section-services\""
    ∧ strContains (generate_html_output data) "href=\"#section-operations\""
    ∧ strContains (generate_html_output data) "href=\"#section-messages\""
    ∧ strContains (generate_html_output data) "href=\"#section-types\"" := by
  have htoc : ∀ pat : String, strContains html_head_toc pat →
      strContains (generate_html_output data) pat := by
    intro pat h
    simp only [generate_html_output, html_head]
    apply strContains_append_left
    apply strContains_append_left
    apply strContains_append_left
    apply strContains_append_left
    apply strContains_append_left
    exact strContains_append_right _ h
  refine ⟨?_, ?_, ?_, ?_, htoc _ (by decide), htoc _ (by decide), htoc _ (by decide),
    htoc _ (by decide)⟩
  · simp only [generate_html_output]
    apply strContains_append_left
    apply strContains_append_left
    apply strContains_append_left
    apply strContains_append_left
    apply strContains_append_right
    simp only [html_services_section]
    exact strContains_append_left _ (strContains_append_left _ (by decide))
  · simp only [generate_html_output]
    apply strContains_append_left
    apply strContains_append_left
    apply strContains_append_left
    apply strContains_append_right
    simp only [html_operations_section]
    exact strContains_append_left _ (strContains_append_left _ (by decide))
  · simp only [generate_html_output]
    apply strContains_append_left
    apply strContains_append_left
    apply strContains_append_right
    simp only [html_messages_section]
    exact strContains_append_left _ (strContains_append_left _ (by decide))
  · intro ht
    simp only [generate_html_output]
    apply strContains_append_left
    apply strContains_append_right
    simp only [html_types_section]
    apply strContains_append_left
    rw [if_pos ht]
    exact strContains_append_left _ (by decide)

/-- The model of the C4 witness: one simple element type entry, so the type
list is non-empty. -/
def exC4typed : ParsedModel :=
  { target_namespace := "urn:ex", services := [], bindings := [], port_types := [],
    messages := [],
    types := [.element (some "Tag") "string" ""] }

/-- Witness for C4 at a concrete model with a non-empty type list: all four
anchors (and all four TOC links) are present. -/
theorem C4_section_anchors_witness :
    strContains (generate_html_output exC4typed) "id=\"section-types\""
    ∧ strContains (generate_html_output exC4typed) "href=\"#section-types\"" :=
  ⟨(C4_section_anchors exC4typed).2.2.2.1 (by decide),
   (C4_section_anchors exC4typed).2.2.2.2.2.2.2⟩

/-- The model of the C4 counterexample: a parsed model whose type list is
empty (nothing else is needed to make the types anchor disappear). -/
def exC4empty : ParsedModel :=
  { target_namespace := "urn:ex", services := [], bindings := [], port_types := [],
    messages := [], types := [] }

/-- The leaves of the rendered output of `exC4empty`, in order. -/
def exC4chunks : List (List Char) :=
  [html_head_css_1.data, html_head_css_2.data, html_head_css_3.data, html_head_css_4.data,
   html_head_css_5.data, html_head_css_6.data, html_head_css_7.data, html_head_css_8.data,
   "urn:ex".data, html_head_toc.data,
   "<div class=\"section\" id=\"section-services\"><h2>📡 サービス情報</h2>".data, "</div>".data,
   "<div class=\"section\" id=\"section-operations\"><h2>🔧 オペレーション一覧</h2>".data, "</div>".data,
   "<div class=\"section\" id=\"section-messages\"><h2>📨 メッセージ定義</h2>".data, "</div>".data,
   "</div>".data,
   "</div></body></html>".data]

set_option maxRecDepth 40000 in
/-- Counterexample to claim C4 as stated: for the model with an empty type
list the rendered HTML does not contain the `section-types` anchor target
at all (while the TOC link to it is still emitted, as the witness of the
amended claim shows for the link side), so not all four in-page anchor
targets exist for every model. -/
theorem C4_counterexample :
    ¬ strContains (generate_html_output exC4empty) "id=\"section-types\"" := by
  have hdata : (generate_html_output exC4empty).data = flattenChunks exC4chunks := by
    simp only [generate_html_output, html_head, html_head_css, html_services_section,
      html_operations_section, html_messages_section, html_types_section,
      collect_message_names, collect_type_names, exC4empty, exC4chunks, flattenChunks,
      List.map_nil, String.join, List.foldl_nil, strData_append, strData_nil,
      List.append_assoc, List.append_nil, List.nil_append, ne_eq, not_true_eq_false,
      if_false, reduceIte]
  unfold strContains
  rw [hdata]
  exact chunksAvoid_spec "id=\"section-types\"".data (by decide) exC4chunks (by decide)
